import Mathlib

/-!
Shallow embedding of the credit-ledger / webhook-reconciliation core of
`personalisedcolpage` (src/src/app/api/groovesell/webhook/route.ts, which
contains both the Next.js webhook route handlers and the SQL schema and
RPC functions for `user_profiles` and `transactions`).

Rows are modelled as structures, the database as lists of rows, the SQL
`UPDATE ... WHERE id = ...` as a map over the row list, and the UNIQUE
constraint on `transactions.groovesell_order_id` as an insert that fails
when a row with the same order id already exists.  Supabase RPC / query
errors are returned as data (never thrown), matching the supabase-js
client; transient infrastructure failures are injected through an
explicit `Faults` record so that theorems can quantify over them.
-/

namespace ColPage

/-- A row of `user_profiles` (route.ts schema, lines 276-286). -/
structure UserProfile where
  id : Nat
  email : String
  subscriptionStatus : String
  subscriptionType : Option String
  totalCredits : Int
  usedCredits : Int
  groovesellCustomerId : Option String
  deriving Repr, DecidableEq

/-- A row of `transactions` (route.ts schema, lines 289-300). -/
structure Transaction where
  userId : Nat
  groovesellOrderId : String
  transactionType : String
  creditsAdded : Int
  amount : Int
  currency : String
  subscriptionType : Option String
  status : String
  deriving Repr, DecidableEq

/-- The database state the webhook core reads and mutates. -/
structure Db where
  profiles : List UserProfile
  transactions : List Transaction
  deriving Repr, DecidableEq

/-- The GrooveSell webhook payload (route.ts lines 6-17).
`subscription_type` is optional in the interface. -/
structure GrooveSellWebhook where
  event_type : String
  order_id : String
  customer_email : String
  product_id : String
  product_name : String
  amount : Int
  currency : String
  status : String
  subscription_type : Option String
  created_at : String
  deriving Repr, DecidableEq

/-- Transient-infrastructure fault injection: each flag makes the
corresponding store call return an error (and perform no mutation),
as supabase-js reports errors in the result object without throwing. -/
structure Faults where
  failUserLookup : Bool
  failTxLookup : Bool
  failProfileLookup : Bool
  failAddCredits : Bool
  failUpdateProfile : Bool
  failInsertTransaction : Bool
  deriving Repr, DecidableEq

/-- No injected faults: the store is healthy. -/
def noFaults : Faults :=
  ⟨false, false, false, false, false, false⟩

/-- `.from('user_profiles').select(...).eq('email', e).single()`:
`single()` succeeds exactly when one row matches. -/
def findUserByEmail (db : Db) (email : String) : Option UserProfile :=
  match db.profiles.filter (fun p => p.email == email) with
  | [p] => some p
  | _ => none

/-- `.from('user_profiles').select(...).eq('id', uid).single()`. -/
def findProfileById (db : Db) (uid : Nat) : Option UserProfile :=
  match db.profiles.filter (fun p => p.id == uid) with
  | [p] => some p
  | _ => none

/-- `.from('transactions').select(...).eq('groovesell_order_id', oid).single()`. -/
def findTransactionByOrderId (db : Db) (oid : String) : Option Transaction :=
  match db.transactions.filter (fun t => t.groovesellOrderId == oid) with
  | [t] => some t
  | _ => none

/-- SQL `UPDATE public.user_profiles SET ... WHERE id = uid`: apply `f`
to every row whose id matches. -/
def updateProfileRow (db : Db) (uid : Nat) (f : UserProfile → UserProfile) : Db :=
  { db with profiles := db.profiles.map (fun p => if p.id == uid then f p else p) }

/-- RPC `add_credits(user_uuid, credits_to_add)` (route.ts lines 412-422):
`SET total_credits = total_credits + credits_to_add` — no clamping. -/
def add_credits (db : Db) (uid : Nat) (creditsToAdd : Int) : Db :=
  updateProfileRow db uid (fun p => { p with totalCredits := p.totalCredits + creditsToAdd })

/-- RPC `use_credits(user_uuid, credits_to_use)` (route.ts lines 386-409):
read available = total - used; if available ≥ requested, increment
used_credits and return TRUE, else return FALSE with no mutation.
A missing row makes `available_credits` NULL, so the comparison is not
satisfied and the function returns FALSE. -/
def use_credits (db : Db) (uid : Nat) (creditsToUse : Int) : Bool × Db :=
  match findProfileById db uid with
  | none => (false, db)
  | some p =>
    if p.totalCredits - p.usedCredits ≥ creditsToUse then
      (true, updateProfileRow db uid (fun q => { q with usedCredits := q.usedCredits + creditsToUse }))
    else
      (false, db)

/-- `.from('transactions').insert(t)`: fails (UNIQUE groovesell_order_id,
schema line 292) when a row with the same order id exists; the error is
returned in the result object, and the database is unchanged. -/
def insertTransaction (db : Db) (t : Transaction) : Option Db :=
  if db.transactions.any (fun u => u.groovesellOrderId == t.groovesellOrderId) then
    none
  else
    some { db with transactions := db.transactions ++ [t] }

/-- `getCreditsForPurchase()` (route.ts lines 31-36): the configured
credits-per-purchase constant, `NEXT_PUBLIC_CREDITS_PER_MONTH` with
default 5.  The environment variable is modelled post-parseInt. -/
def getCreditsForPurchase (creditsEnv : Option Int) : Int :=
  creditsEnv.getD 5

/-- `handlePurchaseCompleted` (route.ts lines 95-161): resolve the user
by email (return silently if unresolved or the lookup errors); add
credits via `add_credits` (return on RPC error); set the subscription
active (return on error, keeping the credits already added); insert the
purchase transaction, logging and swallowing any insert error. -/
def handlePurchaseCompleted (creditsEnv : Option Int) (f : Faults)
    (db : Db) (data : GrooveSellWebhook) : Db :=
  match (if f.failUserLookup then none else findUserByEmail db data.customer_email) with
  | none => db
  | some user =>
    let creditsToAdd := getCreditsForPurchase creditsEnv
    if f.failAddCredits then db
    else
      let db1 := add_credits db user.id creditsToAdd
      if f.failUpdateProfile then db1
      else
        let db2 := updateProfileRow db1 user.id (fun p =>
          { p with subscriptionStatus := "active",
                   subscriptionType := some (data.subscription_type.getD "monthly"),
                   groovesellCustomerId := some data.order_id })
        if f.failInsertTransaction then db2
        else
          match insertTransaction db2
              { userId := user.id,
                groovesellOrderId := data.order_id,
                transactionType := "purchase",
                creditsAdded := creditsToAdd,
                amount := data.amount,
                currency := data.currency,
                subscriptionType := some (data.subscription_type.getD "monthly"),
                status := "completed" } with
          | none => db2
          | some db3 => db3

/-- `handleSubscriptionRenewed` (route.ts lines 163-204): resolve the
user, add credits (result unchecked), insert a purchase transaction
(result unchecked); no subscription-status change. -/
def handleSubscriptionRenewed (creditsEnv : Option Int) (f : Faults)
    (db : Db) (data : GrooveSellWebhook) : Db :=
  match (if f.failUserLookup then none else findUserByEmail db data.customer_email) with
  | none => db
  | some user =>
    let creditsToAdd := getCreditsForPurchase creditsEnv
    let db1 := if f.failAddCredits then db else add_credits db user.id creditsToAdd
    if f.failInsertTransaction then db1
    else
      match insertTransaction db1
          { userId := user.id,
            groovesellOrderId := data.order_id,
            transactionType := "purchase",
            creditsAdded := creditsToAdd,
            amount := data.amount,
            currency := data.currency,
            subscriptionType := some (data.subscription_type.getD "monthly"),
            status := "completed" } with
      | none => db1
      | some db2 => db2

/-- `handleSubscriptionCancelled` (route.ts lines 206-221): set
`subscription_status = 'cancelled'` on every profile matching the
customer email (`.eq('email', ...)`, not `.single()`). -/
def handleSubscriptionCancelled (f : Faults) (db : Db) (data : GrooveSellWebhook) : Db :=
  if f.failUpdateProfile then db
  else
    { db with profiles := db.profiles.map (fun p =>
        if p.email == data.customer_email then { p with subscriptionStatus := "cancelled" } else p) }

/-- `handleRefund` (route.ts lines 223-273): look up the original
transaction by order id (return silently if absent or on error); look
up the owner profile (error unchecked: a missing or failed lookup just
skips the credit removal); if found, remove
`min(credits_added, total_credits)` clamping the result at 0 and set
the status cancelled; then unconditionally insert the
`"<orderId>-refund"` transaction, its result unchecked. -/
def handleRefund (f : Faults) (db : Db) (data : GrooveSellWebhook) : Db :=
  match (if f.failTxLookup then none else findTransactionByOrderId db data.order_id) with
  | none => db
  | some txn =>
    let profileOpt := if f.failProfileLookup then none else findProfileById db txn.userId
    let db1 :=
      match profileOpt with
      | none => db
      | some prof =>
        if f.failUpdateProfile then db
        else
          let creditsToRemove := min txn.creditsAdded prof.totalCredits
          updateProfileRow db txn.userId (fun p =>
            { p with totalCredits := max 0 (prof.totalCredits - creditsToRemove),
                     subscriptionStatus := "cancelled" })
    if f.failInsertTransaction then db1
    else
      match insertTransaction db1
          { userId := txn.userId,
            groovesellOrderId := data.order_id ++ "-refund",
            transactionType := "refund",
            creditsAdded := -txn.creditsAdded,
            amount := -data.amount,
            currency := data.currency,
            subscriptionType := none,
            status := "completed" } with
      | none => db1
      | some db2 => db2

/-- Outcome of the POST route, by response body and status. -/
inductive PostResult where
  /-- 200 with body success: true. -/
  | ok_success : PostResult
  /-- 500, webhook secret not configured. -/
  | errSecretNotConfigured : PostResult
  /-- 400, missing signature header. -/
  | errMissingSignature : PostResult
  /-- 401, invalid signature. -/
  | errInvalidSignature : PostResult
  /-- 500, an exception reached the route-level catch. -/
  | errInternal : PostResult
  deriving Repr, DecidableEq

/-- `verifyWebhookSignature` (route.ts lines 19-29): compare the header
against `sha256=` ++ HMAC-SHA256(secret, payload) with
`crypto.timingSafeEqual`, which throws a RangeError when the two
buffers differ in length; `none` models that throw. -/
def verifyWebhookSignature (hmacSha256Hex : String → String → String)
    (payload signature secret : String) : Option Bool :=
  let expected := "sha256=" ++ hmacSha256Hex secret payload
  if expected.length = signature.length then
    some (expected == signature)
  else
    none

/-- The `POST` route (route.ts lines 38-93).  `hmacSha256Hex` abstracts
the HMAC primitive (secret, then message, to a hex digest);
`secretEnv` is `GROOVESELL_WEBHOOK_SECRET`; `parseJson` abstracts
`JSON.parse`, returning `none` when the body does not parse (the throw
is caught by the route-level catch).  Returns the response and the
database after processing. -/
def POST (hmacSha256Hex : String → String → String) (secretEnv : Option String)
    (creditsEnv : Option Int) (parseJson : String → Option GrooveSellWebhook)
    (f : Faults) (db : Db) (signature : Option String) (body : String) :
    PostResult × Db :=
  match secretEnv with
  | none => (.errSecretNotConfigured, db)
  | some secret =>
    match signature with
    | none => (.errMissingSignature, db)
    | some sig =>
      match verifyWebhookSignature hmacSha256Hex body sig secret with
      | none => (.errInternal, db)
      | some false => (.errInvalidSignature, db)
      | some true =>
        match parseJson body with
        | none => (.errInternal, db)
        | some data =>
          let db2 :=
            if data.event_type == "purchase.completed" ∨ data.event_type == "subscription.created" then
              handlePurchaseCompleted creditsEnv f db data
            else if data.event_type == "subscription.renewed" then
              handleSubscriptionRenewed creditsEnv f db data
            else if data.event_type == "subscription.cancelled" then
              handleSubscriptionCancelled f db data
            else if data.event_type == "refund.processed" then
              handleRefund f db data
            else
              db
          (.ok_success, db2)

end ColPage

namespace ColPage

/-! ### Lemmas about row updates and lookups -/

theorem filter_map_update_pred (l : List UserProfile) (uid v : Nat)
    (f : UserProfile → UserProfile) (hf : ∀ p, (f p).id = p.id) :
    List.filter ((fun p => p.id == v) ∘ (fun p => if p.id == uid then f p else p)) l
      = List.filter (fun p => p.id == v) l := by
  apply List.filter_congr
  intro a _
  by_cases h : a.id = uid
  · simp [Function.comp, h, hf a]
  · simp [Function.comp, h]

theorem filter_map_update_same (l : List UserProfile) (uid : Nat)
    (f : UserProfile → UserProfile) (hf : ∀ p, (f p).id = p.id) :
    (l.map (fun p => if p.id == uid then f p else p)).filter (fun p => p.id == uid)
      = (l.filter (fun p => p.id == uid)).map f := by
  rw [List.filter_map, filter_map_update_pred l uid uid f hf]
  apply List.map_congr_left
  intro a ha
  have hq : (a.id == uid) = true := (List.mem_filter.mp ha).2
  simp at hq
  simp [hq]

theorem filter_map_update_ne (l : List UserProfile) (uid v : Nat) (hne : v ≠ uid)
    (f : UserProfile → UserProfile) (hf : ∀ p, (f p).id = p.id) :
    (l.map (fun p => if p.id == uid then f p else p)).filter (fun p => p.id == v)
      = l.filter (fun p => p.id == v) := by
  rw [List.filter_map, filter_map_update_pred l uid v f hf]
  have hmap : List.map (fun p => if p.id == uid then f p else p)
      (List.filter (fun p => p.id == v) l) = List.map id (List.filter (fun p => p.id == v) l) := by
    apply List.map_congr_left
    intro a ha
    have hq : (a.id == v) = true := (List.mem_filter.mp ha).2
    simp at hq
    have : a.id ≠ uid := by
      rw [hq]
      exact hne
    simp [this]
  rw [hmap, List.map_id]

theorem findProfileById_updateProfileRow_same (db : Db) (uid : Nat)
    (f : UserProfile → UserProfile) (hf : ∀ p, (f p).id = p.id) :
    findProfileById (updateProfileRow db uid f) uid
      = (findProfileById db uid).map f := by
  show (match ((db.profiles.map fun p => if p.id == uid then f p else p).filter
      fun p => p.id == uid) with
    | [p] => some p
    | _ => none) = _
  rw [filter_map_update_same db.profiles uid f hf]
  unfold findProfileById
  cases hl : db.profiles.filter (fun p => p.id == uid) with
  | nil => rfl
  | cons a t => cases t with
    | nil => rfl
    | cons b t2 => rfl

theorem findProfileById_updateProfileRow_ne (db : Db) (uid v : Nat) (hne : v ≠ uid)
    (f : UserProfile → UserProfile) (hf : ∀ p, (f p).id = p.id) :
    findProfileById (updateProfileRow db uid f) v = findProfileById db v := by
  show (match ((db.profiles.map fun p => if p.id == uid then f p else p).filter
      fun p => p.id == v) with
    | [p] => some p
    | _ => none) = _
  rw [filter_map_update_ne db.profiles uid v hne f hf]
  rfl

theorem updateProfileRow_transactions (db : Db) (uid : Nat) (f : UserProfile → UserProfile) :
    (updateProfileRow db uid f).transactions = db.transactions := rfl

theorem eq_of_filter_singleton {α : Type} (p : α → Bool) (l : List α) (a x : α)
    (hl : l.filter p = [a]) (hx : x ∈ l) (hpx : p x = true) : x = a := by
  have hmem : x ∈ l.filter p := List.mem_filter.mpr ⟨hx, hpx⟩
  rw [hl] at hmem
  simpa using hmem

theorem insertTransaction_eq_some (db : Db) (t : Transaction)
    (h : (db.transactions.any fun u => u.groovesellOrderId == t.groovesellOrderId) = false) :
    insertTransaction db t = some { db with transactions := db.transactions ++ [t] } := by
  unfold insertTransaction
  rw [if_neg (by simp [h])]

theorem insertOrKeep_profiles (db : Db) (t : Transaction) :
    (match insertTransaction db t with
      | none => db
      | some d => d).profiles = db.profiles := by
  unfold insertTransaction
  by_cases h : (db.transactions.any fun u => u.groovesellOrderId == t.groovesellOrderId) = true
  · rw [if_pos h]
  · rw [if_neg h]

end ColPage

namespace ColPage

theorem findProfileById_filter_eq (db : Db) (uid : Nat) (p : UserProfile)
    (hp : findProfileById db uid = some p) :
    db.profiles.filter (fun q => q.id == uid) = [p] := by
  unfold findProfileById at hp
  cases hl : db.profiles.filter (fun q => q.id == uid) with
  | nil => rw [hl] at hp; cases hp
  | cons a t =>
    cases t with
    | nil =>
      rw [hl] at hp
      simp only [Option.some.injEq] at hp
      rw [hp]
    | cons b t2 => rw [hl] at hp; cases hp

theorem use_credits_eq_granted (db : Db) (uid : Nat) (n : Int) (p : UserProfile)
    (hp : findProfileById db uid = some p) (h : p.totalCredits - p.usedCredits >= n) :
    use_credits db uid n
      = (true, updateProfileRow db uid (fun q => { q with usedCredits := q.usedCredits + n })) := by
  unfold use_credits
  rw [hp]
  simp [h]

theorem use_credits_eq_denied (db : Db) (uid : Nat) (n : Int) (p : UserProfile)
    (hp : findProfileById db uid = some p) (h : p.totalCredits - p.usedCredits < n) :
    use_credits db uid n = (false, db) := by
  unfold use_credits
  rw [hp]
  simp [not_le.mpr h]

/-- C3: for an existing account, use_credits grants and increments
usedCredits by exactly the requested amount when available credits
suffice, touching no other profile row and no transaction; when
available credits fall short it denies with the database unchanged. -/
theorem use_credits_correct (db : Db) (uid : Nat) (n : Int) (p : UserProfile)
    (hp : findProfileById db uid = some p) :
    (p.totalCredits - p.usedCredits >= n →
      (use_credits db uid n).1 = true ∧
      findProfileById (use_credits db uid n).2 uid
        = some { p with usedCredits := p.usedCredits + n } ∧
      (∀ v, v ≠ uid → findProfileById (use_credits db uid n).2 v = findProfileById db v) ∧
      (use_credits db uid n).2.transactions = db.transactions) ∧
    (p.totalCredits - p.usedCredits < n →
      use_credits db uid n = (false, db)) := by
  constructor
  · intro h
    rw [use_credits_eq_granted db uid n p hp h]
    refine ⟨rfl, ?_, ?_, rfl⟩
    · show findProfileById
        (updateProfileRow db uid (fun q => { q with usedCredits := q.usedCredits + n })) uid = _
      rw [findProfileById_updateProfileRow_same db uid
        (fun q => { q with usedCredits := q.usedCredits + n }) (fun q => rfl), hp]
      rfl
    · intro v hv
      exact findProfileById_updateProfileRow_ne db uid v hv _ (fun q => rfl)
  · intro h
    exact use_credits_eq_denied db uid n p hp h

/-- A fresh account as created by handle_new_user: 3 free credits, none used. -/
def userProfile1 : UserProfile :=
  { id := 1, email := "u@example.com", subscriptionStatus := "inactive",
    subscriptionType := none, totalCredits := 3, usedCredits := 0,
    groovesellCustomerId := none }

/-- A one-account database with an empty transaction log. -/
def db1 : Db := { profiles := [userProfile1], transactions := [] }

/-- Witness for use_credits_correct: the account holds 3 credits, a
request for 1 credit is granted. -/
theorem use_credits_correct_witness :
    findProfileById db1 1 = some userProfile1 ∧
    ((userProfile1.totalCredits - userProfile1.usedCredits >= 1 →
      (use_credits db1 1 1).1 = true ∧
      findProfileById (use_credits db1 1 1).2 1
        = some { userProfile1 with usedCredits := userProfile1.usedCredits + 1 } ∧
      (∀ v, v ≠ 1 → findProfileById (use_credits db1 1 1).2 v = findProfileById db1 v) ∧
      (use_credits db1 1 1).2.transactions = db1.transactions) ∧
    (userProfile1.totalCredits - userProfile1.usedCredits < 1 →
      use_credits db1 1 1 = (false, db1))) :=
  ⟨by decide, use_credits_correct db1 1 1 userProfile1 (by decide)⟩

end ColPage

namespace ColPage

/-- C6 counterexample: the claim says the credit-adjustment primitive
clamps totalCredits at a floor of 0, but `add_credits` on an account
holding 3 credits with delta -5 leaves totalCredits = -2, below zero. -/
theorem add_credits_no_clamp_cex :
    (findProfileById (add_credits db1 1 (-5)) 1).map (fun p => p.totalCredits)
      = some (-2) ∧ (-2 : Int) < 0 := by
  constructor
  · rfl
  · decide

/-- C6 amended: `add_credits` applies the requested delta with no clamp
whatsoever — the target account's totalCredits becomes exactly
totalCredits + delta, even when that value is negative.  (The only
floor-at-0 clamp in the code is the `Math.max(0, ...)` inside
`handleRefund`'s direct profile update, not in `add_credits`.) -/
theorem add_credits_unclamped (db : Db) (uid : Nat) (d : Int) (p : UserProfile)
    (hp : findProfileById db uid = some p) :
    findProfileById (add_credits db uid d) uid
      = some { p with totalCredits := p.totalCredits + d } := by
  unfold add_credits
  rw [findProfileById_updateProfileRow_same db uid
    (fun q => { q with totalCredits := q.totalCredits + d }) (fun q => rfl), hp]
  rfl

/-- Witness for add_credits_unclamped: account 1 holds 3 credits; a
delta of -5 leaves exactly 3 + (-5). -/
theorem add_credits_unclamped_witness :
    findProfileById db1 1 = some userProfile1 ∧
    findProfileById (add_credits db1 1 (-5)) 1
      = some { userProfile1 with totalCredits := userProfile1.totalCredits + (-5) } :=
  ⟨by decide, add_credits_unclamped db1 1 (-5) userProfile1 (by decide)⟩

/-- The spec's per-account invariant: both counters nonnegative and
usedCredits ≤ totalCredits. -/
def ledgerInvariant (p : UserProfile) : Prop :=
  0 ≤ p.usedCredits ∧ 0 ≤ p.totalCredits ∧ p.usedCredits ≤ p.totalCredits

instance ledgerInvariantDecidable (p : UserProfile) : Decidable (ledgerInvariant p) :=
  inferInstanceAs (Decidable (0 ≤ p.usedCredits ∧ 0 ≤ p.totalCredits ∧
    p.usedCredits ≤ p.totalCredits))

/-- A purchase.completed webhook for order O1 by the witness user. -/
def purchaseEvent : GrooveSellWebhook :=
  { event_type := "purchase.completed", order_id := "O1",
    customer_email := "u@example.com", product_id := "prod_1",
    product_name := "Coloring Plan", amount := 10, currency := "USD",
    status := "completed", subscription_type := some "monthly",
    created_at := "2025-01-01T00:00:00Z" }

/-- A refund.processed webhook for the same order O1. -/
def refundEvent : GrooveSellWebhook :=
  { purchaseEvent with
    event_type := "refund.processed",
    status := "refunded",
    created_at := "2025-01-02T00:00:00Z" }

/-- C2 counterexample: starting from the signup default (3 total, 0
used), a purchase of order O1 (+5), full consumption of the 8 available
credits, and then the refund of O1 leave the account at
totalCredits = 3 but usedCredits = 8: `handleRefund` lowers
totalCredits without touching usedCredits, so usedCredits ≤ totalCredits
fails after this sequence of core operations. -/
theorem refund_breaks_used_le_total :
    findProfileById
        (handleRefund noFaults
          ((use_credits (handlePurchaseCompleted none noFaults db1 purchaseEvent) 1 8).2)
          refundEvent) 1
      = some { id := 1, email := "u@example.com", subscriptionStatus := "cancelled",
               subscriptionType := some "monthly", totalCredits := 3, usedCredits := 8,
               groovesellCustomerId := some "O1" } ∧
    ¬ ((8 : Int) ≤ 3) := by
  constructor
  · rfl
  · decide

end ColPage

namespace ColPage

theorem insertStep_profiles (b : Bool) (db : Db) (t : Transaction) :
    (if b then db
     else match insertTransaction db t with
       | none => db
       | some d => d).profiles = db.profiles := by
  cases b
  · simpa using insertOrKeep_profiles db t
  · rfl

theorem handleRefund_profile_mem (f : Faults) (db : Db) (data : GrooveSellWebhook)
    (q : UserProfile) (hq : q ∈ (handleRefund f db data).profiles) :
    q ∈ db.profiles ∨
      ∃ a ∈ db.profiles, ∃ c : Int,
        q = { a with totalCredits := max 0 c, subscriptionStatus := "cancelled" } := by
  unfold handleRefund at hq
  cases htx : (if f.failTxLookup then none else findTransactionByOrderId db data.order_id) with
  | none =>
    rw [htx] at hq
    exact Or.inl hq
  | some txn =>
    rw [htx] at hq
    simp only [] at hq
    rw [insertStep_profiles] at hq
    cases hpr : (if f.failProfileLookup then none else findProfileById db txn.userId) with
    | none =>
      rw [hpr] at hq
      exact Or.inl hq
    | some prof =>
      rw [hpr] at hq
      cases hfu : f.failUpdateProfile with
      | true =>
        rw [hfu] at hq
        simp only [if_true] at hq
        exact Or.inl hq
      | false =>
        rw [hfu] at hq
        simp only [Bool.false_eq_true, if_false] at hq
        rcases List.mem_map.mp hq with ⟨a, ha, rfl⟩
        by_cases hid : a.id = txn.userId
        · have hcond : (a.id == txn.userId) = true := by simpa using hid
          right
          refine ⟨a, ha, prof.totalCredits - min txn.creditsAdded prof.totalCredits, ?_⟩
          simp [hcond]
        · have hcond : (a.id == txn.userId) = false := by simpa using hid
          left
          simpa [hcond] using ha

/-- C2 amended: under credit consumption via use_credits (nonnegative
amounts) and credit grants via add_credits (nonnegative deltas), every
account keeps 0 ≤ usedCredits ≤ totalCredits; refund processing keeps
both counters nonnegative (and does not touch usedCredits), but it can
leave usedCredits > totalCredits because it lowers totalCredits without
adjusting usedCredits. -/
theorem credit_ops_preserve_invariant (db : Db)
    (hdb : ∀ p ∈ db.profiles, ledgerInvariant p) :
    (∀ uid : Nat, ∀ n : Int, 0 ≤ n →
      ∀ q ∈ (use_credits db uid n).2.profiles, ledgerInvariant q) ∧
    (∀ uid : Nat, ∀ d : Int, 0 ≤ d →
      ∀ q ∈ (add_credits db uid d).profiles, ledgerInvariant q) ∧
    (∀ f : Faults, ∀ data : GrooveSellWebhook,
      ∀ q ∈ (handleRefund f db data).profiles,
        0 ≤ q.usedCredits ∧ 0 ≤ q.totalCredits) := by
  refine ⟨?_, ?_, ?_⟩
  · intro uid n hn q hq
    cases hp : findProfileById db uid with
    | none =>
      unfold use_credits at hq
      rw [hp] at hq
      exact hdb q hq
    | some p =>
      by_cases h : p.totalCredits - p.usedCredits ≥ n
      · rw [use_credits_eq_granted db uid n p hp h] at hq
        replace hq : q ∈ (updateProfileRow db uid
            (fun r => { r with usedCredits := r.usedCredits + n })).profiles := hq
        rcases List.mem_map.mp hq with ⟨a, ha, rfl⟩
        by_cases hid : a.id = uid
        · have hap : a = p :=
            eq_of_filter_singleton (fun r => r.id == uid) db.profiles p a
              (findProfileById_filter_eq db uid p hp) ha (by simpa using hid)
          have hcond : (a.id == uid) = true := by simpa using hid
          obtain ⟨i1, i2, i3⟩ := hdb a ha
          have hav : a.totalCredits - a.usedCredits ≥ n := by rw [hap]; exact h
          simp only [hcond, if_true]
          exact ⟨by show 0 ≤ a.usedCredits + n; omega,
                 by show 0 ≤ a.totalCredits; omega,
                 by show a.usedCredits + n ≤ a.totalCredits; omega⟩
        · have hcond : (a.id == uid) = false := by simpa using hid
          simp only [hcond, Bool.false_eq_true, if_false]
          exact hdb a ha
      · rw [use_credits_eq_denied db uid n p hp (lt_of_not_ge h)] at hq
        exact hdb q hq
  · intro uid d hd q hq
    replace hq : q ∈ (updateProfileRow db uid
        (fun r => { r with totalCredits := r.totalCredits + d })).profiles := hq
    rcases List.mem_map.mp hq with ⟨a, ha, rfl⟩
    obtain ⟨i1, i2, i3⟩ := hdb a ha
    by_cases hid : a.id = uid
    · have hcond : (a.id == uid) = true := by simpa using hid
      simp only [hcond, if_true]
      exact ⟨i1, by show 0 ≤ a.totalCredits + d; omega,
             by show a.usedCredits ≤ a.totalCredits + d; omega⟩
    · have hcond : (a.id == uid) = false := by simpa using hid
      simp only [hcond, Bool.false_eq_true, if_false]
      exact ⟨i1, i2, i3⟩
  · intro f data q hq
    rcases handleRefund_profile_mem f db data q hq with hmem | ⟨a, ha, c, rfl⟩
    · exact ⟨(hdb q hmem).1, (hdb q hmem).2.1⟩
    · obtain ⟨i1, i2, i3⟩ := hdb a ha
      exact ⟨i1, by show (0 : Int) ≤ max 0 c; exact le_max_left 0 c⟩

/-- Witness for credit_ops_preserve_invariant: the one-account database
db1 satisfies the invariant, so the preservation theorem applies to it. -/
theorem credit_ops_preserve_invariant_witness :
    (∀ p ∈ db1.profiles, ledgerInvariant p) ∧
    ((∀ uid : Nat, ∀ n : Int, 0 ≤ n →
      ∀ q ∈ (use_credits db1 uid n).2.profiles, ledgerInvariant q) ∧
    (∀ uid : Nat, ∀ d : Int, 0 ≤ d →
      ∀ q ∈ (add_credits db1 uid d).profiles, ledgerInvariant q) ∧
    (∀ f : Faults, ∀ data : GrooveSellWebhook,
      ∀ q ∈ (handleRefund f db1 data).profiles,
        0 ≤ q.usedCredits ∧ 0 ≤ q.totalCredits)) :=
  ⟨by decide, credit_ops_preserve_invariant db1 (by decide)⟩

theorem handleRefund_eq_found (db : Db) (data : GrooveSellWebhook)
    (txn : Transaction) (prof : UserProfile)
    (htx : findTransactionByOrderId db data.order_id = some txn)
    (hp : findProfileById db txn.userId = some prof)
    (hdup : (db.transactions.any
      (fun u => u.groovesellOrderId == data.order_id ++ "-refund")) = false) :
    handleRefund noFaults db data =
      { profiles := (updateProfileRow db txn.userId (fun p =>
          { p with totalCredits := max 0 (prof.totalCredits - min txn.creditsAdded prof.totalCredits),
                   subscriptionStatus := "cancelled" })).profiles,
        transactions := db.transactions ++
          [{ userId := txn.userId,
             groovesellOrderId := data.order_id ++ "-refund",
             transactionType := "refund",
             creditsAdded := -txn.creditsAdded,
             amount := -data.amount,
             currency := data.currency,
             subscriptionType := none,
             status := "completed" }] } := by
  simp only [handleRefund, noFaults, Bool.false_eq_true, if_false, htx, hp]
  rw [insertTransaction_eq_some _ _ hdup]
  rfl

/-- C5: for an authentic refund whose original transaction and its owner
profile both resolve, and whose derived refund key is not yet recorded,
handleRefund removes exactly min(originalCreditsAdded, totalCredits)
from the owner's totalCredits — a quantity that never drives
totalCredits below 0 — sets subscriptionStatus to cancelled, and appends
exactly one Transaction keyed orderId-refund with creditsAdded equal to
minus the original creditsAdded. -/
theorem handleRefund_correct (db : Db) (data : GrooveSellWebhook)
    (txn : Transaction) (prof : UserProfile)
    (htx : findTransactionByOrderId db data.order_id = some txn)
    (hp : findProfileById db txn.userId = some prof)
    (hdup : (db.transactions.any
      (fun u => u.groovesellOrderId == data.order_id ++ "-refund")) = false) :
    findProfileById (handleRefund noFaults db data) txn.userId
      = some { prof with
          totalCredits := prof.totalCredits - min txn.creditsAdded prof.totalCredits,
          subscriptionStatus := "cancelled" } ∧
    0 ≤ prof.totalCredits - min txn.creditsAdded prof.totalCredits ∧
    (handleRefund noFaults db data).transactions
      = db.transactions ++
        [{ userId := txn.userId,
           groovesellOrderId := data.order_id ++ "-refund",
           transactionType := "refund",
           creditsAdded := -txn.creditsAdded,
           amount := -data.amount,
           currency := data.currency,
           subscriptionType := none,
           status := "completed" }] := by
  have hmin : min txn.creditsAdded prof.totalCredits ≤ prof.totalCredits :=
    min_le_right _ _
  have hzero : (0 : Int) ≤ prof.totalCredits - min txn.creditsAdded prof.totalCredits := by
    omega
  have hmax : max 0 (prof.totalCredits - min txn.creditsAdded prof.totalCredits)
      = prof.totalCredits - min txn.creditsAdded prof.totalCredits :=
    max_eq_right hzero
  rw [handleRefund_eq_found db data txn prof htx hp hdup]
  refine ⟨?_, hzero, rfl⟩
  show findProfileById (updateProfileRow db txn.userId (fun p =>
      { p with totalCredits := max 0 (prof.totalCredits - min txn.creditsAdded prof.totalCredits),
               subscriptionStatus := "cancelled" })) txn.userId = _
  rw [findProfileById_updateProfileRow_same db txn.userId
      (fun p => { p with
        totalCredits := max 0 (prof.totalCredits - min txn.creditsAdded prof.totalCredits),
        subscriptionStatus := "cancelled" }) (fun q => rfl), hp, hmax]
  rfl

/-- The recorded purchase transaction for order O1: +5 credits. -/
def purchaseTx1 : Transaction :=
  { userId := 1, groovesellOrderId := "O1", transactionType := "purchase",
    creditsAdded := 5, amount := 10, currency := "USD",
    subscriptionType := some "monthly", status := "completed" }

/-- An active account holding 6 credits, as in the spec's refund scenario. -/
def profile6 : UserProfile :=
  { id := 1, email := "u@example.com", subscriptionStatus := "active",
    subscriptionType := some "monthly", totalCredits := 6, usedCredits := 0,
    groovesellCustomerId := some "O1" }

/-- Database for the refund scenario: account with 6 credits, purchase O1 recorded. -/
def refundDb : Db := { profiles := [profile6], transactions := [purchaseTx1] }

/-- Witness for handleRefund_correct: refunding O1 (original +5) at
totalCredits = 6 leaves totalCredits = 1 and a -5 refund transaction. -/
theorem handleRefund_correct_witness :
    findTransactionByOrderId refundDb refundEvent.order_id = some purchaseTx1 ∧
    findProfileById refundDb purchaseTx1.userId = some profile6 ∧
    (refundDb.transactions.any
      (fun u => u.groovesellOrderId == refundEvent.order_id ++ "-refund")) = false ∧
    (findProfileById (handleRefund noFaults refundDb refundEvent) purchaseTx1.userId
      = some { profile6 with
          totalCredits := profile6.totalCredits - min purchaseTx1.creditsAdded profile6.totalCredits,
          subscriptionStatus := "cancelled" } ∧
    0 ≤ profile6.totalCredits - min purchaseTx1.creditsAdded profile6.totalCredits ∧
    (handleRefund noFaults refundDb refundEvent).transactions
      = refundDb.transactions ++
        [{ userId := purchaseTx1.userId,
           groovesellOrderId := refundEvent.order_id ++ "-refund",
           transactionType := "refund",
           creditsAdded := -purchaseTx1.creditsAdded,
           amount := -refundEvent.amount,
           currency := refundEvent.currency,
           subscriptionType := none,
           status := "completed" }]) :=
  ⟨by decide, by decide, by decide,
   handleRefund_correct refundDb refundEvent purchaseTx1 profile6
     (by decide) (by decide) (by decide)⟩

/-- C10: for a refund whose original transaction resolves but whose
owner-profile lookup returns no row, handleRefund leaves every profile
(credit counters and subscription status) untouched, yet still appends
the orderId-refund transaction with creditsAdded = -originalCreditsAdded. -/
theorem handleRefund_orphan_inserts_refund (db : Db) (data : GrooveSellWebhook)
    (txn : Transaction)
    (htx : findTransactionByOrderId db data.order_id = some txn)
    (hp : findProfileById db txn.userId = none)
    (hdup : (db.transactions.any
      (fun u => u.groovesellOrderId == data.order_id ++ "-refund")) = false) :
    (handleRefund noFaults db data).profiles = db.profiles ∧
    (handleRefund noFaults db data).transactions
      = db.transactions ++
        [{ userId := txn.userId,
           groovesellOrderId := data.order_id ++ "-refund",
           transactionType := "refund",
           creditsAdded := -txn.creditsAdded,
           amount := -data.amount,
           currency := data.currency,
           subscriptionType := none,
           status := "completed" }] := by
  simp only [handleRefund, noFaults, Bool.false_eq_true, if_false, htx, hp]
  rw [insertTransaction_eq_some _ _ hdup]
  exact ⟨rfl, rfl⟩

/-- Database where purchase O1 is recorded but no profile exists for its
user (the transactions table references auth.users, not user_profiles,
so such a row is representable). -/
def orphanDb : Db := { profiles := [], transactions := [purchaseTx1] }

/-- Witness for handleRefund_orphan_inserts_refund on orphanDb. -/
theorem handleRefund_orphan_inserts_refund_witness :
    findTransactionByOrderId orphanDb refundEvent.order_id = some purchaseTx1 ∧
    findProfileById orphanDb purchaseTx1.userId = none ∧
    (orphanDb.transactions.any
      (fun u => u.groovesellOrderId == refundEvent.order_id ++ "-refund")) = false ∧
    ((handleRefund noFaults orphanDb refundEvent).profiles = orphanDb.profiles ∧
    (handleRefund noFaults orphanDb refundEvent).transactions
      = orphanDb.transactions ++
        [{ userId := purchaseTx1.userId,
           groovesellOrderId := refundEvent.order_id ++ "-refund",
           transactionType := "refund",
           creditsAdded := -purchaseTx1.creditsAdded,
           amount := -refundEvent.amount,
           currency := refundEvent.currency,
           subscriptionType := none,
           status := "completed" }]) :=
  ⟨by decide, by decide, by decide,
   handleRefund_orphan_inserts_refund orphanDb refundEvent purchaseTx1
     (by decide) (by decide) (by decide)⟩

theorem handlePurchaseCompleted_eq_found (creditsEnv : Option Int) (db : Db)
    (data : GrooveSellWebhook) (user : UserProfile)
    (hu : findUserByEmail db data.customer_email = some user)
    (hdup : (db.transactions.any
      (fun u => u.groovesellOrderId == data.order_id)) = false) :
    handlePurchaseCompleted creditsEnv noFaults db data =
      { profiles := (updateProfileRow
          (add_credits db user.id (getCreditsForPurchase creditsEnv)) user.id (fun p =>
            { p with subscriptionStatus := "active",
                     subscriptionType := some (data.subscription_type.getD "monthly"),
                     groovesellCustomerId := some data.order_id })).profiles,
        transactions := db.transactions ++
          [{ userId := user.id,
             groovesellOrderId := data.order_id,
             transactionType := "purchase",
             creditsAdded := getCreditsForPurchase creditsEnv,
             amount := data.amount,
             currency := data.currency,
             subscriptionType := some (data.subscription_type.getD "monthly"),
             status := "completed" }] } := by
  simp only [handlePurchaseCompleted, noFaults, Bool.false_eq_true, if_false, hu]
  rw [insertTransaction_eq_some _ _ hdup]
  rfl

/-- C8: for an authentic purchase.completed or subscription.created
event whose customer email resolves to an account, the handler adds the
configured credits-per-purchase constant to totalCredits, sets the
subscription active with the payload's type (default monthly), and
appends exactly one purchase Transaction carrying that credit amount. -/
theorem handlePurchaseCompleted_correct (creditsEnv : Option Int) (db : Db)
    (data : GrooveSellWebhook) (user : UserProfile)
    (hu : findUserByEmail db data.customer_email = some user)
    (hid : findProfileById db user.id = some user)
    (hdup : (db.transactions.any
      (fun u => u.groovesellOrderId == data.order_id)) = false) :
    findProfileById (handlePurchaseCompleted creditsEnv noFaults db data) user.id
      = some { user with
          totalCredits := user.totalCredits + getCreditsForPurchase creditsEnv,
          subscriptionStatus := "active",
          subscriptionType := some (data.subscription_type.getD "monthly"),
          groovesellCustomerId := some data.order_id } ∧
    (handlePurchaseCompleted creditsEnv noFaults db data).transactions
      = db.transactions ++
        [{ userId := user.id,
           groovesellOrderId := data.order_id,
           transactionType := "purchase",
           creditsAdded := getCreditsForPurchase creditsEnv,
           amount := data.amount,
           currency := data.currency,
           subscriptionType := some (data.subscription_type.getD "monthly"),
           status := "completed" }] := by
  rw [handlePurchaseCompleted_eq_found creditsEnv db data user hu hdup]
  refine ⟨?_, rfl⟩
  show findProfileById (updateProfileRow
      (add_credits db user.id (getCreditsForPurchase creditsEnv)) user.id (fun p =>
        { p with subscriptionStatus := "active",
                 subscriptionType := some (data.subscription_type.getD "monthly"),
                 groovesellCustomerId := some data.order_id })) user.id = _
  rw [findProfileById_updateProfileRow_same _ user.id
      (fun p =>
        { p with
          subscriptionStatus := "active",
          subscriptionType := some (data.subscription_type.getD "monthly"),
          groovesellCustomerId := some data.order_id }) (fun q => rfl)]
  unfold add_credits
  rw [findProfileById_updateProfileRow_same db user.id
      (fun p => { p with totalCredits := p.totalCredits + getCreditsForPurchase creditsEnv })
      (fun q => rfl), hid]
  rfl

/-- Witness for handlePurchaseCompleted_correct: purchase O1 against the
fresh 3-credit account with the default 5 credits per purchase. -/
theorem handlePurchaseCompleted_correct_witness :
    findUserByEmail db1 purchaseEvent.customer_email = some userProfile1 ∧
    findProfileById db1 userProfile1.id = some userProfile1 ∧
    (db1.transactions.any
      (fun u => u.groovesellOrderId == purchaseEvent.order_id)) = false ∧
    (findProfileById (handlePurchaseCompleted none noFaults db1 purchaseEvent) userProfile1.id
      = some { userProfile1 with
          totalCredits := userProfile1.totalCredits + getCreditsForPurchase none,
          subscriptionStatus := "active",
          subscriptionType := some (purchaseEvent.subscription_type.getD "monthly"),
          groovesellCustomerId := some purchaseEvent.order_id } ∧
    (handlePurchaseCompleted none noFaults db1 purchaseEvent).transactions
      = db1.transactions ++
        [{ userId := userProfile1.id,
           groovesellOrderId := purchaseEvent.order_id,
           transactionType := "purchase",
           creditsAdded := getCreditsForPurchase none,
           amount := purchaseEvent.amount,
           currency := purchaseEvent.currency,
           subscriptionType := some (purchaseEvent.subscription_type.getD "monthly"),
           status := "completed" }]) :=
  ⟨by decide, by decide, by decide,
   handlePurchaseCompleted_correct none db1 purchaseEvent userProfile1
     (by decide) (by decide) (by decide)⟩

theorem POST_eq_dispatch (hmacSha256Hex : String → String → String)
    (secret body : String) (creditsEnv : Option Int)
    (parseJson : String → Option GrooveSellWebhook) (f : Faults) (db : Db)
    (data : GrooveSellWebhook) (hpj : parseJson body = some data) :
    POST hmacSha256Hex (some secret) creditsEnv parseJson f db
      (some ("sha256=" ++ hmacSha256Hex secret body)) body =
    (PostResult.ok_success,
      if data.event_type == "purchase.completed" ∨ data.event_type == "subscription.created" then
        handlePurchaseCompleted creditsEnv f db data
      else if data.event_type == "subscription.renewed" then
        handleSubscriptionRenewed creditsEnv f db data
      else if data.event_type == "subscription.cancelled" then
        handleSubscriptionCancelled f db data
      else if data.event_type == "refund.processed" then
        handleRefund f db data
      else db) := by
  simp only [POST, verifyWebhookSignature, if_pos, beq_self_eq_true, hpj]

theorem handlePurchaseCompleted_no_user (creditsEnv : Option Int) (db : Db)
    (data : GrooveSellWebhook)
    (hu : findUserByEmail db data.customer_email = none) :
    handlePurchaseCompleted creditsEnv noFaults db data = db := by
  simp only [handlePurchaseCompleted, noFaults, Bool.false_eq_true, if_false, hu]

theorem handleSubscriptionRenewed_no_user (creditsEnv : Option Int) (db : Db)
    (data : GrooveSellWebhook)
    (hu : findUserByEmail db data.customer_email = none) :
    handleSubscriptionRenewed creditsEnv noFaults db data = db := by
  simp only [handleSubscriptionRenewed, noFaults, Bool.false_eq_true, if_false, hu]

theorem handleRefund_no_tx (db : Db) (data : GrooveSellWebhook)
    (htx : findTransactionByOrderId db data.order_id = none) :
    handleRefund noFaults db data = db := by
  simp only [handleRefund, noFaults, Bool.false_eq_true, if_false, htx]

/-- C4: the endpoint fails closed and performs no mutation whenever the
webhook secret is not configured, the signature header is missing, or
the supplied signature is not sha256= followed by the HMAC-SHA256 hex
digest of the raw body: the database is returned unchanged and the
response is never the success acknowledgement. -/
theorem post_rejects_unauthentic (hmacSha256Hex : String → String → String)
    (secret : String) (creditsEnv : Option Int)
    (parseJson : String → Option GrooveSellWebhook) (f : Faults) (db : Db)
    (sig : Option String) (body g : String) :
    (POST hmacSha256Hex none creditsEnv parseJson f db sig body
      = (PostResult.errSecretNotConfigured, db)) ∧
    (POST hmacSha256Hex (some secret) creditsEnv parseJson f db none body
      = (PostResult.errMissingSignature, db)) ∧
    (g ≠ "sha256=" ++ hmacSha256Hex secret body →
      (POST hmacSha256Hex (some secret) creditsEnv parseJson f db (some g) body).2 = db ∧
      (POST hmacSha256Hex (some secret) creditsEnv parseJson f db (some g) body).1
        ≠ PostResult.ok_success) := by
  refine ⟨rfl, rfl, ?_⟩
  intro hne
  have hbeq : (("sha256=" ++ hmacSha256Hex secret body) == g) = false := by
    simpa using Ne.symm hne
  by_cases hlen : ("sha256=" ++ hmacSha256Hex secret body).length = g.length
  · have hpost : POST hmacSha256Hex (some secret) creditsEnv parseJson f db (some g) body
        = (PostResult.errInvalidSignature, db) := by
      simp only [POST, verifyWebhookSignature, if_pos hlen, hbeq]
    rw [hpost]
    exact ⟨rfl, by intro h; cases h⟩
  · have hpost : POST hmacSha256Hex (some secret) creditsEnv parseJson f db (some g) body
        = (PostResult.errInternal, db) := by
      simp only [POST, verifyWebhookSignature, if_neg hlen]
    rw [hpost]
    exact ⟨rfl, by intro h; cases h⟩

/-- Witness for post_rejects_unauthentic: a wrong signature against a
fixed HMAC oracle is rejected without touching the database. -/
theorem post_rejects_unauthentic_witness :
    (POST (fun _ _ => "d") none none (fun _ => none) noFaults db1 (some "x") "b"
      = (PostResult.errSecretNotConfigured, db1)) ∧
    (POST (fun _ _ => "d") (some "s") none (fun _ => none) noFaults db1 none "b"
      = (PostResult.errMissingSignature, db1)) ∧
    ("x" ≠ "sha256=" ++ (fun _ _ => "d") "s" "b" →
      (POST (fun _ _ => "d") (some "s") none (fun _ => none) noFaults db1 (some "x") "b").2 = db1 ∧
      (POST (fun _ _ => "d") (some "s") none (fun _ => none) noFaults db1 (some "x") "b").1
        ≠ PostResult.ok_success) :=
  post_rejects_unauthentic (fun _ _ => "d") "s" none (fun _ => none) noFaults db1 (some "x") "b" "x"

/-- Faults record injecting a transient add_credits failure only. -/
def addCreditsFault : Faults := ⟨false, false, false, true, false, false⟩

/-- C7 counterexample: an authentic purchase event processed while the
add_credits RPC fails transiently is still acknowledged with the
success response (and the database is left unchanged), so the external
processor never retries — the claim that the endpoint responds with a
failure status on a transient store failure is false. -/
theorem store_failure_acked_success_cex :
    POST (fun _ _ => "d") (some "s") none (fun _ => some purchaseEvent)
      addCreditsFault db1 (some "sha256=d") "rawbody"
      = (PostResult.ok_success, db1) := by
  decide

/-- C7 amended: every handler swallows store errors internally (logging
only), so for every fault injection the endpoint acknowledges an
authentic, parseable event with the success response; failure statuses
arise only before dispatch (missing secret, missing or invalid
signature, unparseable body). -/
theorem post_acks_success_despite_store_failures
    (hmacSha256Hex : String → String → String) (secret body : String)
    (creditsEnv : Option Int) (parseJson : String → Option GrooveSellWebhook)
    (f : Faults) (db : Db) (data : GrooveSellWebhook)
    (hpj : parseJson body = some data) :
    (POST hmacSha256Hex (some secret) creditsEnv parseJson f db
      (some ("sha256=" ++ hmacSha256Hex secret body)) body).1
      = PostResult.ok_success := by
  rw [POST_eq_dispatch hmacSha256Hex secret body creditsEnv parseJson f db data hpj]

/-- Witness for post_acks_success_despite_store_failures: the purchase
event with a failing transaction insert is still acknowledged. -/
theorem post_acks_success_despite_store_failures_witness :
    (fun _ => some purchaseEvent : String → Option GrooveSellWebhook) "rawbody"
      = some purchaseEvent ∧
    (POST (fun _ _ => "d") (some "s") none (fun _ => some purchaseEvent)
      ⟨false, false, false, false, false, true⟩ db1 (some "sha256=d") "rawbody").1
      = PostResult.ok_success :=
  ⟨rfl, post_acks_success_despite_store_failures (fun _ _ => "d") "s" "rawbody" none
    (fun _ => some purchaseEvent) ⟨false, false, false, false, false, true⟩ db1
    purchaseEvent rfl⟩

/-- C9: an authentic event whose referenced entity cannot be resolved —
a purchase-family event whose customer email matches no account, or a
refund whose order id matches no recorded transaction — mutates nothing
and is still acknowledged with the success response. -/
theorem post_unresolved_acks_without_mutation
    (hmacSha256Hex : String → String → String) (secret body : String)
    (creditsEnv : Option Int) (parseJson : String → Option GrooveSellWebhook)
    (db : Db) (data : GrooveSellWebhook)
    (hpj : parseJson body = some data) :
    ((data.event_type = "purchase.completed" ∨ data.event_type = "subscription.created" ∨
        data.event_type = "subscription.renewed") →
      findUserByEmail db data.customer_email = none →
      POST hmacSha256Hex (some secret) creditsEnv parseJson noFaults db
        (some ("sha256=" ++ hmacSha256Hex secret body)) body
        = (PostResult.ok_success, db)) ∧
    (data.event_type = "refund.processed" →
      findTransactionByOrderId db data.order_id = none →
      POST hmacSha256Hex (some secret) creditsEnv parseJson noFaults db
        (some ("sha256=" ++ hmacSha256Hex secret body)) body
        = (PostResult.ok_success, db)) := by
  constructor
  · intro hevt hu
    rw [POST_eq_dispatch hmacSha256Hex secret body creditsEnv parseJson noFaults db data hpj]
    rcases hevt with h | h | h
    · rw [h, if_pos (Or.inl (by decide)),
        handlePurchaseCompleted_no_user creditsEnv db data hu]
    · rw [h, if_pos (Or.inr (by decide)),
        handlePurchaseCompleted_no_user creditsEnv db data hu]
    · rw [h, if_neg (by decide), if_pos (by decide),
        handleSubscriptionRenewed_no_user creditsEnv db data hu]
  · intro hevt htx
    rw [POST_eq_dispatch hmacSha256Hex secret body creditsEnv parseJson noFaults db data hpj]
    rw [hevt, if_neg (by decide), if_neg (by decide), if_neg (by decide),
      if_pos (by decide), handleRefund_no_tx db data htx]

/-- A purchase payload whose customer email matches no account in db1. -/
def strangerEvent : GrooveSellWebhook :=
  { purchaseEvent with customer_email := "ghost@example.com" }

/-- Witness for post_unresolved_acks_without_mutation: a purchase for an
unknown email and a refund for an unrecorded order, both against db1,
are acknowledged without mutation. -/
theorem post_unresolved_acks_without_mutation_witness :
    POST (fun _ _ => "d") (some "s") none (fun _ => some strangerEvent) noFaults db1
      (some "sha256=d") "rawbody" = (PostResult.ok_success, db1) ∧
    POST (fun _ _ => "d") (some "s") none (fun _ => some refundEvent) noFaults db1
      (some "sha256=d") "rawbody" = (PostResult.ok_success, db1) :=
  ⟨(post_unresolved_acks_without_mutation (fun _ _ => "d") "s" "rawbody" none
      (fun _ => some strangerEvent) db1 strangerEvent rfl).1
      (Or.inl rfl) (by decide),
   (post_unresolved_acks_without_mutation (fun _ _ => "d") "s" "rawbody" none
      (fun _ => some refundEvent) db1 refundEvent rfl).2
      rfl (by decide)⟩

/-- The database state after the first delivery of the authentic
purchase payload to db1. -/
def dbAfterFirstDelivery : Db :=
  (POST (fun _ _ => "d") (some "s") none (fun _ => some purchaseEvent) noFaults db1
    (some "sha256=d") "rawbody").2

/-- C1: replay evaluation.  Delivering the identical authentic purchase
payload and signature twice: both deliveries are acknowledged with
success and only one Transaction is recorded for order O1 (the second
insert hits the groovesell_order_id uniqueness constraint and the error
is swallowed), but the credit addition IS applied on both deliveries —
the account rises from 3 to 13 credits (two applications of +5), not to
8 as one ledger mutation would give.  handlePurchaseCompleted runs
add_credits before the transaction insert, so the uniqueness violation
does not prevent the second ledger mutation. -/
theorem replay_applies_credits_twice :
    (POST (fun _ _ => "d") (some "s") none (fun _ => some purchaseEvent) noFaults db1
      (some "sha256=d") "rawbody").1 = PostResult.ok_success ∧
    (POST (fun _ _ => "d") (some "s") none (fun _ => some purchaseEvent) noFaults
      dbAfterFirstDelivery (some "sha256=d") "rawbody").1 = PostResult.ok_success ∧
    (POST (fun _ _ => "d") (some "s") none (fun _ => some purchaseEvent) noFaults
      dbAfterFirstDelivery (some "sha256=d") "rawbody").2.transactions.length = 1 ∧
    (findProfileById dbAfterFirstDelivery 1).map (fun p => p.totalCredits) = some 8 ∧
    (findProfileById
        (POST (fun _ _ => "d") (some "s") none (fun _ => some purchaseEvent) noFaults
          dbAfterFirstDelivery (some "sha256=d") "rawbody").2 1).map
        (fun p => p.totalCredits) = some 13 ∧
    (findProfileById db1 1).map (fun p => p.totalCredits) = some 3 := by
  refine ⟨rfl, rfl, rfl, rfl, rfl, rfl⟩

end ColPage
